import Mathlib

/-! Verification development for the avatar engine core (the useAvatarEngine
hook and its helpers): playback transport state, audio-graph topology,
feature-extractor energy normalization, emotion blending, audio loading, and
the video-export recording session.

The embedding is shallow: times, offsets and sample values are rationals; the
audio clock instant (audioContext.currentTime in the source) is passed
explicitly to every operation that reads it; source-node identity (the
AudioBufferSourceNode objects, which are single-use) is modelled by a counter
that hands out a fresh tag on every createBufferSource; asynchronous failures
of external collaborators (file read, network fetch, ffmpeg extraction,
MediaRecorder, transcode) are injected as explicit outcome parameters. -/

namespace AvatarEngine

/-- Decoded audio asset (AudioBuffer in the source): duration in seconds plus
decoded sample data. -/
structure AudioBuffer where
  duration : ℚ
  data : List ℚ
deriving DecidableEq

/-- Export target formats (ExportFormat in the source). -/
inductive ExportFormat where
  | webm
  | mp4
deriving DecidableEq

/-- State of one engine instance: the refs and React state of useAvatarEngine
that the transport, loaders, exporter and animation loop read and write.
buffer is audioBufferRef, startTime is startTimeRef, pauseOffset is
pauseOffsetRef, ignoreEnd is ignoreEndRef, sourceNode is sourceNodeRef (as a
node tag), peakEnergy is peakEnergyRef, gainValue is the gain parameter of
the gain node. The source declares hasAudio twice (a useState pair and a later
useMemo over the buffer ref); the load/decode paths drive the useState
setter, which is what this field models. -/
structure EngineState where
  buffer : Option AudioBuffer
  hasAudio : Bool
  isPlaying : Bool
  startTime : ℚ
  pauseOffset : ℚ
  ignoreEnd : Bool
  sourceNode : Option Nat
  nextNodeId : Nat
  isExporting : Bool
  isLoadingAudio : Bool
  isGeneratingSpeech : Bool
  isProcessingVideo : Bool
  audioDuration : ℚ
  peakEnergy : ℚ
  volume : ℚ
  gainValue : ℚ
  playbackProgress : ℚ
  mouthOpen : ℚ
  energy : ℚ
deriving DecidableEq

/-- clamp01 from the source: Math.min(1, Math.max(0, value)). -/
def clamp01 (value : ℚ) : ℚ := min 1 (max 0 value)

/-- smoothStep from the source (the smoothing argument is passed explicitly;
the call site uses 2/5). -/
def smoothStep (value smoothing : ℚ) : ℚ :=
  if value < 0 then 0
  else if 1 < value then 1
  else value * value * (3 - 2 * value) * smoothing + value * (1 - smoothing)

/-- EmotionState from the source: five emotion components. -/
structure EmotionState where
  happy : ℚ
  sad : ℚ
  angry : ℚ
  surprised : ℚ
  neutral : ℚ
deriving DecidableEq

/-- computeEmotionBlend from the source, with the decimal weights written as
rationals (0.7 = 7/10, 0.2 = 2/10, 0.1 = 1/10, 0.6 = 6/10, 0.25 = 25/100,
0.35 = 35/100, 0.4 = 4/10). -/
def computeEmotionBlend (emotion : EmotionState) (energy : ℚ) : EmotionState where
  happy := clamp01 (emotion.happy * (7/10) + energy * (2/10) + emotion.neutral * (1/10))
  sad := clamp01 (emotion.sad * (7/10) + (1 - energy) * (2/10) + emotion.neutral * (1/10))
  angry := clamp01 (emotion.angry * (6/10) + energy * (25/100))
  surprised := clamp01 (emotion.surprised * (6/10) + energy * (35/100))
  neutral := clamp01 (emotion.neutral * (4/10) + (1 - energy) * (2/10))

/-- stopCurrentSource from the source: stop and disconnect the active node,
clear the ref. -/
def stopCurrentSource (s : EngineState) : EngineState :=
  { s with sourceNode := none }

/-- getCurrentOffset from the source: while playing, elapsed clock time since
startTime clamped to [0, duration]; while paused, the stored pause offset
clamped by duration; 0 without an asset. -/
def getCurrentOffset (s : EngineState) (now : ℚ) : ℚ :=
  match s.buffer with
  | none => 0
  | some buf =>
    if s.isPlaying then min (max (now - s.startTime) 0) buf.duration
    else min s.pauseOffset buf.duration

/-- schedulePlayback from the source: clamp the requested offset into
[0, max(duration - 0.001, 0)], retire the current node, reset the end-event
suppression flag, construct a fresh source node started at the clamped
offset, record clock start and offset, and mark playing when requested.
Returns the updated state and the tag of the fresh node (none without an asset). -/
def schedulePlayback (s : EngineState) (now offset : ℚ) (markPlaying : Bool) :
    EngineState × Option Nat :=
  match s.buffer with
  | none => (s, none)
  | some buf =>
    let startOffset := min (max offset 0) (max (buf.duration - 1/1000) 0)
    let s1 := stopCurrentSource s
    let s2 := { s1 with ignoreEnd := false }
    let nid := s2.nextNodeId
    ({ s2 with
        sourceNode := some nid
        nextNodeId := nid + 1
        startTime := now - startOffset
        pauseOffset := startOffset
        isPlaying := if markPlaying then true else s2.isPlaying }, some nid)

/-- The onended handler installed by schedulePlayback: when the end event is
not suppressed and the node that ended is still the current one, retire it,
reset the offset to 0 and (when the segment was marked playing) leave the
playing state; otherwise the event is stale and changes nothing. -/
def sourceEnded (s : EngineState) (node : Nat) (markPlaying : Bool) : EngineState :=
  if s.ignoreEnd = false ∧ s.sourceNode = some node then
    { s with
        sourceNode := none
        pauseOffset := 0
        isPlaying := if markPlaying then false else s.isPlaying }
  else s

/-- play from the source: throws (none) without an asset; otherwise schedules
playback from the current offset with markPlaying set. -/
def play (s : EngineState) (now : ℚ) : Option EngineState :=
  match s.buffer with
  | none => none
  | some _ => some (schedulePlayback s now (getCurrentOffset s now) true).1

/-- pause from the source: no-op without an asset or when not playing;
otherwise capture the elapsed offset, set the end-event suppression flag,
stop the current node, and leave the playing state. -/
def pause (s : EngineState) (now : ℚ) : EngineState :=
  match s.buffer with
  | none => s
  | some _ =>
    if s.isPlaying = false then s
    else
      let offset := getCurrentOffset s now
      let s1 := stopCurrentSource { s with pauseOffset := offset, ignoreEnd := true }
      { s1 with isPlaying := false }

/-- resetPlayback from the source: zero the offsets, stop the node, clear the
playing flag and the animation readouts. -/
def resetPlayback (s : EngineState) : EngineState :=
  { stopCurrentSource { s with pauseOffset := 0, startTime := 0 } with
      isPlaying := false
      playbackProgress := 0
      mouthOpen := 0
      energy := 0 }

/-- decodeAudioData from the source: a successful decode stores the new
buffer, raises hasAudio, records the duration and resets playback; a decode
failure (none) rethrows without touching the stored state. The Bool is
resolve (true) versus reject (false). -/
def decodeAudioData (s : EngineState) (decoded : Option AudioBuffer) : EngineState × Bool :=
  match decoded with
  | none => (s, false)
  | some buf =>
    (resetPlayback { s with buffer := some buf, hasAudio := true, audioDuration := buf.duration },
     true)

/-- Outcome of one load attempt: the pre-decode byte acquisition fails
(file read, network fetch, or ffmpeg extraction), the decode fails, or the
decode yields a buffer. -/
inductive LoadStep where
  | readFail
  | decodeFail
  | ok (buf : AudioBuffer)

/-- loadAudioFromFile from the source: raise the loading flag, clear
hasAudio, then read and decode; any failure keeps hasAudio false and
rethrows; the loading flag is cleared in the finally block. -/
def loadAudioFromFile (s : EngineState) (step : LoadStep) : EngineState × Bool :=
  let s1 := { s with isLoadingAudio := true, hasAudio := false }
  match step with
  | LoadStep.readFail =>
    ({ s1 with hasAudio := false, isLoadingAudio := false }, false)
  | LoadStep.decodeFail =>
    let r := decodeAudioData s1 none
    ({ r.1 with hasAudio := false, isLoadingAudio := false }, false)
  | LoadStep.ok buf =>
    let r := decodeAudioData s1 (some buf)
    ({ r.1 with isLoadingAudio := false }, true)

/-- generateSpeechFromText from the source: empty text throws before any
state change; otherwise raise the generating flag, clear hasAudio, fetch and
decode; any failure keeps hasAudio false and rethrows; the generating flag is
cleared in the finally block. readFail stands for a failed /api/tts fetch. -/
def generateSpeechFromText (s : EngineState) (textOk : Bool) (step : LoadStep) :
    EngineState × Bool :=
  if textOk = false then (s, false)
  else
    let s1 := { s with isGeneratingSpeech := true, hasAudio := false }
    match step with
    | LoadStep.readFail =>
      ({ s1 with hasAudio := false, isGeneratingSpeech := false }, false)
    | LoadStep.decodeFail =>
      let r := decodeAudioData s1 none
      ({ r.1 with hasAudio := false, isGeneratingSpeech := false }, false)
    | LoadStep.ok buf =>
      let r := decodeAudioData s1 (some buf)
      ({ r.1 with isGeneratingSpeech := false }, true)

/-- loadAudioFromVideo from the source: raise the processing flag, clear
hasAudio, extract the audio track and decode; any failure keeps hasAudio
false and rethrows; the processing flag is cleared in the finally block.
readFail stands for a failed extractAudioFromVideo call. -/
def loadAudioFromVideo (s : EngineState) (step : LoadStep) : EngineState × Bool :=
  let s1 := { s with isProcessingVideo := true, hasAudio := false }
  match step with
  | LoadStep.readFail =>
    ({ s1 with hasAudio := false, isProcessingVideo := false }, false)
  | LoadStep.decodeFail =>
    let r := decodeAudioData s1 none
    ({ r.1 with hasAudio := false, isProcessingVideo := false }, false)
  | LoadStep.ok buf =>
    let r := decodeAudioData s1 (some buf)
    ({ r.1 with isProcessingVideo := false }, true)

/-- updateVolume from the source: clamp the value into [0, 1], store it, and
write it to the gain parameter of the gain node. -/
def updateVolume (s : EngineState) (value : ℚ) : EngineState :=
  let clamped := clamp01 value
  { s with volume := clamped, gainValue := clamped }

/-- Audio-graph topology built by ensureAudioContext and schedulePlayback:
source.connect(analyser); analyser.connect(gain); gain.connect(destination)
and gain.connect(mediaStreamDestination). The output of the source node is
the decoded sample window. -/
def sourceSignal (src : List ℚ) : List ℚ := src

/-- The time-domain window of the analyser (getFloatTimeDomainData) is the
output of the source node: the analysis tap sits upstream of the gain node. -/
def analyserSignal (src : List ℚ) : List ℚ := sourceSignal src

/-- The gain node scales the analyser output by gain.value. -/
def gainOutputSignal (src : List ℚ) (gain : ℚ) : List ℚ :=
  (analyserSignal src).map (fun x => x * gain)

/-- Both downstream sinks (speakers and the capture stream) receive the output
of the gain node. -/
def destinationSignal (src : List ℚ) (gain : ℚ) : List ℚ := gainOutputSignal src gain

/-- Mean square of the analyser window, from the animation loop: sum of
squared samples divided by the window length. The rms of the loop is its
square root, abstracted below as a nonnegative rational. -/
def rmsSq (data : List ℚ) : ℚ :=
  (data.map (fun v => v * v)).sum / (data.length : ℚ)

/-- The decay factor of the peak tracker, 0.995 in the source. -/
def decayFactor : ℚ := 995/1000

/-- The per-tick peak update from the animation loop:
peak = max(peak * 0.995, rms). -/
def tickPeak (peak rms : ℚ) : ℚ := max (peak * decayFactor) rms

/-- The per-tick normalized energy from the animation loop: rms divided by
the updated peak, guarded to 0 when the updated peak is not positive. -/
def tickNormalizedEnergy (peak rms : ℚ) : ℚ :=
  if 0 < tickPeak peak rms then rms / tickPeak peak rms else 0

/-- The state-updating part of the per-frame animation loop (energy, mouth
and progress smoothing; the loop body runs only while a buffer is loaded).
rms abstracts Math.sqrt of the mean square of the window. -/
def tickAnimation (s : EngineState) (rms now : ℚ) : EngineState :=
  match s.buffer with
  | none => s
  | some buf =>
    let peak1 := tickPeak s.peakEnergy rms
    let normalizedEnergy := if 0 < peak1 then rms / peak1 else 0
    let smoothedMouth := smoothStep (normalizedEnergy * (18/10)) (4/10)
    let newEnergy := clamp01 normalizedEnergy
    let elapsed := if s.isPlaying then now - s.startTime else s.pauseOffset
    let rawProgress := if 0 < buf.duration then min (elapsed / buf.duration) (999/1000) else 0
    { s with
        peakEnergy := peak1
        mouthOpen := s.mouthOpen * (8/10) + smoothedMouth * (2/10)
        energy := s.energy * (9/10) + newEnergy * (1/10)
        playbackProgress := s.playbackProgress * (8/10) + rawProgress * (2/10) }

/-- Failure injection for the export pipeline: availability of the capture
stream of the capture sink, MediaRecorder.isTypeSupported for the intermediate codec, the
recorder session itself, and the WebM-to-MP4 transcode. -/
structure ExportEnv where
  audioStreamOk : Bool
  formatSupported : Bool
  recorderOk : Bool
  transcodeOk : Bool
deriving DecidableEq

/-- exportVideo from the source. Fail-fast preconditions (canvas ready and a
buffer loaded) throw before the exporting flag is raised. The body then:
pauses after remembering the pre-call offset and playing flag, syncs the gain
node (ensureAudioContext), checks the capture stream and the recording
format, forces playback from offset 0 and waits for its natural end, awaits
the recorder, transcodes when the target is MP4, and on success restores the
remembered position (replaying from it when it was playing). The catch block
only rethrows; the finally block clears the exporting flag. The Bool is
resolve (true) versus reject (false); now, now2 and now3 are the clock
instants of the pre-call snapshot, the forced playback, and the restore. -/
def exportVideo (s : EngineState) (canvasReady : Bool) (now now2 now3 : ℚ)
    (format : ExportFormat) (env : ExportEnv) : EngineState × Bool :=
  if canvasReady = false then (s, false)
  else match s.buffer with
  | none => (s, false)
  | some _ =>
    let s0 := { s with isExporting := true }
    let previousOffset := getCurrentOffset s0 now
    let wasPlaying := s0.isPlaying
    let body : EngineState × Bool :=
      let s1 := pause s0 now
      let s2 := { s1 with gainValue := s1.volume }
      if env.audioStreamOk = false then (s2, false)
      else if env.formatSupported = false then (s2, false)
      else
        let sp := schedulePlayback s2 now2 0 true
        let s3 :=
          match sp.2 with
          | some n => sourceEnded sp.1 n true
          | none => sp.1
        if env.recorderOk = false then (s3, false)
        else if format = ExportFormat.mp4 ∧ env.transcodeOk = false then (s3, false)
        else
          let s4 :=
            if wasPlaying then
              (schedulePlayback { s3 with pauseOffset := previousOffset } now3 previousOffset
                true).1
            else { s3 with pauseOffset := previousOffset, isPlaying := false }
          (s4, true)
    ({ body.1 with isExporting := false }, body.2)

/-! Concrete states used by counterexamples and witnesses. -/

/-- A 2-second decoded asset. -/
def demoBuf : AudioBuffer := { duration := 2, data := [1/2, -1/2] }

/-- A running transport: segment 0 active since clock 0, 2-second asset. -/
def runningState : EngineState where
  buffer := some demoBuf
  hasAudio := true
  isPlaying := true
  startTime := 0
  pauseOffset := 0
  ignoreEnd := false
  sourceNode := some 0
  nextNodeId := 1
  isExporting := false
  isLoadingAudio := false
  isGeneratingSpeech := false
  isProcessingVideo := false
  audioDuration := 2
  peakEnergy := 1/10000
  volume := 1
  gainValue := 1
  playbackProgress := 0
  mouthOpen := 0
  energy := 0

/-- A paused transport at offset 1/2 with the same asset. -/
def pausedState : EngineState :=
  { runningState with
      isPlaying := false
      sourceNode := none
      pauseOffset := 1/2 }

/-- The state play reaches from the paused demo state at clock 0. -/
def afterPlayState : EngineState :=
  (schedulePlayback pausedState 0 (getCurrentOffset pausedState 0) true).1

/-- A 1-second decoded asset. -/
def oneSecBuf : AudioBuffer := { duration := 1, data := [] }

/-- A paused transport holding the 1-second asset. -/
def seekDemoState : EngineState :=
  { runningState with
      buffer := some oneSecBuf
      isPlaying := false
      sourceNode := none
      audioDuration := 1 }

/-- A state whose end-event suppression flag is set (as pause leaves it). -/
def ignoreEndState : EngineState :=
  { runningState with ignoreEnd := true }

/-- Export environment in which only the MP4 transcode step fails. -/
def failTranscodeEnv : ExportEnv :=
  { audioStreamOk := true, formatSupported := true, recorderOk := true, transcodeOk := false }

/-- Export environment in which every pipeline step succeeds. -/
def allOkEnv : ExportEnv :=
  { audioStreamOk := true, formatSupported := true, recorderOk := true, transcodeOk := true }

/-- The default emotion mix from the source (DEFAULT_EMOTIONS). -/
def demoEmotion : EmotionState :=
  { happy := 4/10, sad := 1/10, angry := 1/10, surprised := 2/10, neutral := 8/10 }

/-! Helper lemmas. -/

/-- clamp01 always lands in the unit interval. -/
theorem clamp01_mem (x : ℚ) : 0 ≤ clamp01 x ∧ clamp01 x ≤ 1 :=
  ⟨le_min (by norm_num) (le_max_left 0 x), min_le_left 1 (max 0 x)⟩

/-- Clamping an offset already in [0, d] into [0, max (d - 1/1000) 0] moves
it by at most 1/1000 (the clamp schedulePlayback applies). -/
theorem clamped_offset_close (o d : ℚ) (h0 : 0 ≤ o) (hd : o ≤ d) :
    |min (max o 0) (max (d - 1/1000) 0) - o| ≤ 1/1000 := by
  rw [max_eq_left h0, abs_le]
  constructor
  · rcases le_or_lt 0 (d - 1/1000) with h | h
    · rw [max_eq_left h]
      rcases le_total o (d - 1/1000) with h3 | h3
      · rw [min_eq_left h3]; linarith
      · rw [min_eq_right h3]; linarith
    · rw [max_eq_right h.le, min_eq_right h0]; linarith
  · have h1 : min o (max (d - 1/1000) 0) ≤ o := min_le_left _ _
    linarith

/-- pause is the identity on a transport that is not playing. -/
theorem pause_of_not_playing (s : EngineState) (now : ℚ) (h : s.isPlaying = false) :
    pause s now = s := by
  unfold pause
  cases hb : s.buffer with
  | none => rfl
  | some buf => simp [h]

/-- Field-level description of schedulePlayback when an asset is loaded. -/
theorem schedulePlayback_fields (s : EngineState) (buf : AudioBuffer) (now offset : ℚ)
    (markPlaying : Bool) (hb : s.buffer = some buf) :
    (schedulePlayback s now offset markPlaying).1.buffer = s.buffer ∧
    (schedulePlayback s now offset markPlaying).1.ignoreEnd = false ∧
    (schedulePlayback s now offset markPlaying).1.sourceNode = some s.nextNodeId ∧
    (schedulePlayback s now offset markPlaying).1.isPlaying =
      (if markPlaying then true else s.isPlaying) ∧
    (schedulePlayback s now offset markPlaying).1.pauseOffset =
      min (max offset 0) (max (buf.duration - 1/1000) 0) ∧
    (schedulePlayback s now offset markPlaying).1.startTime =
      now - min (max offset 0) (max (buf.duration - 1/1000) 0) ∧
    (schedulePlayback s now offset markPlaying).2 = some s.nextNodeId := by
  unfold schedulePlayback stopCurrentSource
  rw [hb]
  simp

/-- When the end event is not suppressed and the ended node is current, the
handler retires it and resets the transport. -/
theorem sourceEnded_acts (s : EngineState) (n : Nat) (markPlaying : Bool)
    (h1 : s.ignoreEnd = false) (h2 : s.sourceNode = some n) :
    sourceEnded s n markPlaying =
      { s with
          sourceNode := none
          pauseOffset := 0
          isPlaying := if markPlaying then false else s.isPlaying } := by
  unfold sourceEnded
  rw [if_pos ⟨h1, h2⟩]

/-- pause never changes the stored buffer. -/
theorem pause_buffer (s : EngineState) (now : ℚ) : (pause s now).buffer = s.buffer := by
  unfold pause stopCurrentSource
  cases hb : s.buffer with
  | none => simp [hb]
  | some buf => by_cases h : s.isPlaying = false <;> simp [hb, h]

/-- sourceEnded never changes the stored buffer. -/
theorem sourceEnded_buffer (s : EngineState) (n : Nat) (markPlaying : Bool) :
    (sourceEnded s n markPlaying).buffer = s.buffer := by
  unfold sourceEnded
  by_cases h : s.ignoreEnd = false ∧ s.sourceNode = some n <;> simp [h]

/-- With an asset loaded, the transport is paused right after pause. -/
theorem pause_isPlaying_false (s : EngineState) (buf : AudioBuffer) (now : ℚ)
    (hb : s.buffer = some buf) : (pause s now).isPlaying = false := by
  unfold pause stopCurrentSource
  rw [hb]
  by_cases h : s.isPlaying = false <;> simp [h]

/-- With an asset loaded and the transport running, pause stores the current
offset, raises the end-event suppression flag, retires the node and clears
the playing flag. -/
theorem pause_acts (s : EngineState) (buf : AudioBuffer) (now : ℚ)
    (hb : s.buffer = some buf) (hp : s.isPlaying = true) :
    pause s now =
      { s with
          pauseOffset := getCurrentOffset s now
          ignoreEnd := true
          sourceNode := none
          isPlaying := false } := by
  unfold pause stopCurrentSource
  rw [hb]
  simp [hp]

/-- getCurrentOffset while playing: elapsed clock time clamped into
[0, duration]. -/
theorem getCurrentOffset_eq_of_playing (s : EngineState) (buf : AudioBuffer) (now : ℚ)
    (hb : s.buffer = some buf) (hp : s.isPlaying = true) :
    getCurrentOffset s now = min (max (now - s.startTime) 0) buf.duration := by
  unfold getCurrentOffset
  rw [hb]
  simp [hp]

/-- getCurrentOffset while paused: the stored offset capped by duration. -/
theorem getCurrentOffset_eq_of_paused (s : EngineState) (buf : AudioBuffer) (now : ℚ)
    (hb : s.buffer = some buf) (hp : s.isPlaying = false) :
    getCurrentOffset s now = min s.pauseOffset buf.duration := by
  unfold getCurrentOffset
  rw [hb]
  simp [hp]

/-- While playing with an asset of nonnegative duration loaded, the current
offset lands in [0, duration]. -/
theorem getCurrentOffset_playing_mem (s : EngineState) (buf : AudioBuffer) (now : ℚ)
    (hb : s.buffer = some buf) (hp : s.isPlaying = true) (hd : 0 ≤ buf.duration) :
    0 ≤ getCurrentOffset s now ∧ getCurrentOffset s now ≤ buf.duration := by
  unfold getCurrentOffset
  rw [hb]
  simp only [hp, if_true]
  exact ⟨le_min (le_max_right _ _) hd, min_le_right _ _⟩

/-- An EmotionVector whose five components lie in [0, 1]. -/
def EmotionValid (e : EmotionState) : Prop :=
  0 ≤ e.happy ∧ e.happy ≤ 1 ∧ 0 ≤ e.sad ∧ e.sad ≤ 1 ∧ 0 ≤ e.angry ∧ e.angry ≤ 1 ∧
  0 ≤ e.surprised ∧ e.surprised ≤ 1 ∧ 0 ≤ e.neutral ∧ e.neutral ≤ 1

/-! Claim theorems. -/

/-- Claim C8: for every EmotionVector whose five components lie in [0, 1]
(boundaries included) and every energy in [0, 1], every component of the
blended output lies in [0, 1]. -/
theorem emotion_blend_clamped (e : EmotionState) (energy : ℚ)
    (he : EmotionValid e) (h0 : 0 ≤ energy) (h1 : energy ≤ 1) :
    EmotionValid (computeEmotionBlend e energy) := by
  unfold EmotionValid computeEmotionBlend
  exact ⟨(clamp01_mem _).1, (clamp01_mem _).2, (clamp01_mem _).1, (clamp01_mem _).2,
    (clamp01_mem _).1, (clamp01_mem _).2, (clamp01_mem _).1, (clamp01_mem _).2,
    (clamp01_mem _).1, (clamp01_mem _).2⟩

/-- Witness for C8: the blend of the default emotion mix at full energy has
all components in [0, 1]. -/
theorem emotion_blend_clamped_witness : EmotionValid (computeEmotionBlend demoEmotion 1) :=
  emotion_blend_clamped demoEmotion 1
    (by unfold EmotionValid demoEmotion; norm_num) (by norm_num) (by norm_num)

/-- Claim C9: the mean square of the window is nonnegative (so its square root,
the rms, is as well), the peak decay factor is just below 1, the updated peak
dominates the current rms, and the guarded normalized energy rms divided by
the updated peak always lies in [0, 1]. -/
theorem tick_energy_in_unit_interval :
    (∀ data : List ℚ, 0 ≤ rmsSq data) ∧
    decayFactor < 1 ∧
    (∀ peak rms : ℚ, 0 ≤ rms →
      rms ≤ tickPeak peak rms ∧
      0 ≤ tickNormalizedEnergy peak rms ∧ tickNormalizedEnergy peak rms ≤ 1) := by
  refine ⟨?_, by norm_num [decayFactor], ?_⟩
  · intro data
    unfold rmsSq
    apply div_nonneg
    · apply List.sum_nonneg
      intro x hx
      obtain ⟨v, _, rfl⟩ := List.mem_map.mp hx
      exact mul_self_nonneg v
    · exact_mod_cast Nat.zero_le _
  · intro peak rms h
    refine ⟨le_max_right _ _, ?_, ?_⟩
    · unfold tickNormalizedEnergy
      split
      · next hp => exact div_nonneg h hp.le
      · exact le_refl 0
    · unfold tickNormalizedEnergy
      split
      · next hp => exact (div_le_one hp).mpr (le_max_right _ _)
      · norm_num

/-- Witness for C9: with the initial peak 1/10000 and an rms of 1/2, the
updated peak dominates the rms and the normalized energy is in [0, 1]. -/
theorem tick_energy_in_unit_interval_witness :
    (1/2 : ℚ) ≤ tickPeak (1/10000) (1/2) ∧
    0 ≤ tickNormalizedEnergy (1/10000) (1/2) ∧
    tickNormalizedEnergy (1/10000) (1/2) ≤ 1 :=
  tick_energy_in_unit_interval.2.2 (1/10000) (1/2) (by norm_num)

/-- Claim C5: a stale end event never changes the transport. The onended
guard ignores the event whenever the suppression flag is set or the ended
node is no longer current; pause on a running transport sets the suppression
flag before stopping its node; and a restart hands the current slot to a
fresh node, so no previously issued node can pass the guard afterwards. -/
theorem stale_end_suppressed :
    (∀ (s : EngineState) (n : Nat) (markPlaying : Bool),
      s.ignoreEnd = true ∨ s.sourceNode ≠ some n → sourceEnded s n markPlaying = s) ∧
    (∀ (s : EngineState) (buf : AudioBuffer) (now : ℚ),
      s.buffer = some buf → s.isPlaying = true → (pause s now).ignoreEnd = true) ∧
    (∀ (s : EngineState) (buf : AudioBuffer) (now offset : ℚ) (markPlaying : Bool) (n : Nat),
      s.buffer = some buf → n < s.nextNodeId →
      (schedulePlayback s now offset markPlaying).1.sourceNode ≠ some n) := by
  refine ⟨?_, ?_, ?_⟩
  · intro s n markPlaying h
    unfold sourceEnded
    rw [if_neg]
    rintro ⟨h1, h2⟩
    rcases h with h | h
    · rw [h] at h1; exact absurd h1 (by simp)
    · exact h h2
  · intro s buf now hb hp
    rw [pause_acts s buf now hb hp]
  · intro s buf now offset markPlaying n hb hn
    rw [(schedulePlayback_fields s buf now offset markPlaying hb).2.2.1]
    intro h
    rw [Option.some_inj] at h
    omega

/-- Witness for C5: a set suppression flag swallows the end event of node 0;
pause on the running demo state sets the flag; a restart on the running demo
state retires node 0 from the current slot. -/
theorem stale_end_suppressed_witness :
    sourceEnded ignoreEndState 0 true = ignoreEndState ∧
    (pause runningState 1).ignoreEnd = true ∧
    (schedulePlayback runningState 1 0 true).1.sourceNode ≠ some 0 :=
  ⟨stale_end_suppressed.1 ignoreEndState 0 true (Or.inl rfl),
   stale_end_suppressed.2.1 runningState demoBuf 1 rfl rfl,
   stale_end_suppressed.2.2 runningState demoBuf 1 0 true 0 rfl (by norm_num [runningState])⟩

/-- Claim C4: when a segment started by play reaches its natural end and the
end event is neither suppressed nor stale, the transport transitions from
Running to Paused with the offset reset to 0 and the node retired. -/
theorem natural_end_pauses_at_zero :
    ∀ (s s2 : EngineState) (now : ℚ) (n : Nat),
    play s now = some s2 → s2.sourceNode = some n →
    (sourceEnded s2 n true).isPlaying = false ∧
    (sourceEnded s2 n true).pauseOffset = 0 ∧
    (sourceEnded s2 n true).sourceNode = none := by
  intro s s2 now n hplay hnode
  unfold play at hplay
  cases hb : s.buffer with
  | none => rw [hb] at hplay; exact absurd hplay (by simp)
  | some buf =>
    rw [hb] at hplay
    simp only [Option.some.injEq] at hplay
    have hfields := schedulePlayback_fields s buf now (getCurrentOffset s now) true hb
    rw [sourceEnded_acts s2 n true (by rw [← hplay]; exact hfields.2.1) hnode]
    exact ⟨rfl, rfl, rfl⟩

/-- Witness for C4: playing the paused demo state and letting the fresh node
(tag 1) end naturally leaves the transport paused at offset 0. -/
theorem natural_end_pauses_at_zero_witness :
    (sourceEnded afterPlayState 1 true).isPlaying = false ∧
    (sourceEnded afterPlayState 1 true).pauseOffset = 0 ∧
    (sourceEnded afterPlayState 1 true).sourceNode = none :=
  natural_end_pauses_at_zero pausedState afterPlayState 0 1 rfl rfl

/-- Claim C2 (counterexample): with the transport already running, play is
not a no-op — it constructs a fresh playback node, so the resulting state
(in particular the active source node) differs from the starting state. -/
theorem play_running_not_noop :
    runningState.isPlaying = true ∧ play runningState 1 ≠ some runningState := by
  constructor
  · rfl
  · simp [play, runningState, demoBuf, schedulePlayback, getCurrentOffset, stopCurrentSource]

/-- Claim C2 (amended): pause when already paused is a no-op leaving the
state unchanged; play when already running is not a no-op — it replaces the
active source node with a fresh one — though it keeps the transport running
and moves the current offset by at most the 1/1000 s end clamp. -/
theorem transport_idempotence_amended :
    (∀ (s : EngineState) (now : ℚ), s.isPlaying = false → pause s now = s) ∧
    (∀ (s : EngineState) (buf : AudioBuffer) (now : ℚ),
      s.buffer = some buf → s.isPlaying = true → 0 ≤ buf.duration →
      ∃ s2, play s now = some s2 ∧ s2.isPlaying = true ∧
        s2.sourceNode = some s.nextNodeId ∧
        |getCurrentOffset s2 now - getCurrentOffset s now| ≤ 1/1000) := by
  constructor
  · exact fun s now h => pause_of_not_playing s now h
  · intro s buf now hb hp hd
    obtain ⟨ho0, hod⟩ := getCurrentOffset_playing_mem s buf now hb hp hd
    set o := getCurrentOffset s now with ho
    have hfields := schedulePlayback_fields s buf now o true hb
    refine ⟨(schedulePlayback s now o true).1, ?_, ?_, ?_, ?_⟩
    · unfold play; rw [hb, ← ho]
    · rw [hfields.2.2.2.1]; rfl
    · exact hfields.2.2.1
    · have hso0 : 0 ≤ min (max o 0) (max (buf.duration - 1/1000) 0) :=
        le_min (le_max_right _ _) (le_max_right _ _)
      have hsod : min (max o 0) (max (buf.duration - 1/1000) 0) ≤ buf.duration :=
        le_trans (min_le_right _ _) (max_le (by linarith) hd)
      have hoff := getCurrentOffset_eq_of_playing (schedulePlayback s now o true).1 buf now
        (by rw [hfields.1, hb]) (by rw [hfields.2.2.2.1]; rfl)
      rw [hfields.2.2.2.2.2.1] at hoff
      rw [show now - (now - min (max o 0) (max (buf.duration - 1/1000) 0)) =
        min (max o 0) (max (buf.duration - 1/1000) 0) by ring] at hoff
      rw [max_eq_left hso0, min_eq_left hsod] at hoff
      rw [hoff]
      exact clamped_offset_close o buf.duration ho0 hod

/-- Witness for C2 (amended): pause is a no-op on the paused demo state, and
play on the running demo state yields a running state with the fresh node
tag 1 whose offset moved by at most 1/1000. -/
theorem transport_idempotence_amended_witness :
    pause pausedState 1 = pausedState ∧
    (∃ s2, play runningState 1 = some s2 ∧ s2.isPlaying = true ∧
      s2.sourceNode = some runningState.nextNodeId ∧
      |getCurrentOffset s2 1 - getCurrentOffset runningState 1| ≤ 1/1000) :=
  ⟨transport_idempotence_amended.1 pausedState 1 rfl,
   transport_idempotence_amended.2 runningState demoBuf 1 rfl rfl (by norm_num [demoBuf])⟩

/-- Claim C3 (counterexample): the requested offset 1999/2000 lies in
[0, duration) for the 1-second asset, yet seeking there via the restart
primitive stores and reads back 999/1000, because the upper clamp bound is
duration minus 1/1000, not duration: the stated round-trip fails. -/
theorem seek_roundtrip_counterexample :
    0 ≤ (1999/2000 : ℚ) ∧ (1999/2000 : ℚ) < oneSecBuf.duration ∧
    (schedulePlayback seekDemoState 5 (1999/2000) true).1.pauseOffset ≠ 1999/2000 ∧
    getCurrentOffset (schedulePlayback seekDemoState 5 (1999/2000) true).1 5 ≠ 1999/2000 := by
  refine ⟨by norm_num, by norm_num [oneSecBuf], ?_, ?_⟩ <;>
    norm_num [seekDemoState, runningState, oneSecBuf, schedulePlayback, getCurrentOffset,
      stopCurrentSource]

/-- Claim C3 (amended): the seek/restart primitive schedulePlayback
clamps the requested offset into [0, max(duration - 1/1000, 0)]; for any
request already in [0, duration - 1/1000] the stored offset and the
immediately read current offset both equal the request, and the transport is
running afterwards whenever markPlaying is set. -/
theorem schedulePlayback_clamp_roundtrip :
    ∀ (s : EngineState) (buf : AudioBuffer) (x now : ℚ) (markPlaying : Bool),
    s.buffer = some buf → 0 ≤ x → x ≤ buf.duration - 1/1000 →
    (schedulePlayback s now x markPlaying).1.pauseOffset = x ∧
    getCurrentOffset (schedulePlayback s now x markPlaying).1 now = x ∧
    (markPlaying = true → (schedulePlayback s now x markPlaying).1.isPlaying = true) := by
  intro s buf x now markPlaying hb h0 h1
  have hfields := schedulePlayback_fields s buf now x markPlaying hb
  have hxd : x ≤ buf.duration := by linarith
  have hclamp : min (max x 0) (max (buf.duration - 1/1000) 0) = x := by
    rw [max_eq_left h0, min_eq_left (le_trans h1 (le_max_left _ _))]
  refine ⟨by rw [hfields.2.2.2.2.1, hclamp], ?_, ?_⟩
  · cases hmain : (schedulePlayback s now x markPlaying).1.isPlaying
    · rw [getCurrentOffset_eq_of_paused _ buf now (by rw [hfields.1, hb]) hmain]
      rw [hfields.2.2.2.2.1, hclamp, min_eq_left hxd]
    · rw [getCurrentOffset_eq_of_playing _ buf now (by rw [hfields.1, hb]) hmain]
      rw [hfields.2.2.2.2.2.1, hclamp]
      rw [show now - (now - x) = x by ring]
      rw [max_eq_left h0, min_eq_left hxd]
  · intro hmp
    rw [hfields.2.2.2.1, hmp]
    rfl

/-- Witness for C3 (amended): seeking the paused 1-second demo state to 1/4
stores 1/4, reads back 1/4, and leaves the transport running. -/
theorem schedulePlayback_clamp_roundtrip_witness :
    (schedulePlayback seekDemoState 5 (1/4) true).1.pauseOffset = 1/4 ∧
    getCurrentOffset (schedulePlayback seekDemoState 5 (1/4) true).1 5 = 1/4 ∧
    (true = true → (schedulePlayback seekDemoState 5 (1/4) true).1.isPlaying = true) :=
  schedulePlayback_clamp_roundtrip seekDemoState oneSecBuf (1/4) 5 true rfl (by norm_num)
    (by norm_num [oneSecBuf])

/-- Claim C7: whenever loadAudioFromFile, generateSpeechFromText (with
nonempty text) or loadAudioFromVideo rejects — byte acquisition failure or
decode failure — the resulting state has hasAudio false and the previously
stored buffer untouched; the stored buffer is replaced exactly when the new
decode succeeds. -/
theorem load_failure_atomicity :
    ∀ (s : EngineState) (step : LoadStep),
    ((loadAudioFromFile s step).2 = false →
      (loadAudioFromFile s step).1.hasAudio = false ∧
      (loadAudioFromFile s step).1.buffer = s.buffer) ∧
    ((generateSpeechFromText s true step).2 = false →
      (generateSpeechFromText s true step).1.hasAudio = false ∧
      (generateSpeechFromText s true step).1.buffer = s.buffer) ∧
    ((loadAudioFromVideo s step).2 = false →
      (loadAudioFromVideo s step).1.hasAudio = false ∧
      (loadAudioFromVideo s step).1.buffer = s.buffer) ∧
    (∀ buf : AudioBuffer,
      (loadAudioFromFile s (LoadStep.ok buf)).1.buffer = some buf ∧
      (loadAudioFromFile s (LoadStep.ok buf)).1.hasAudio = true ∧
      (generateSpeechFromText s true (LoadStep.ok buf)).1.buffer = some buf ∧
      (loadAudioFromVideo s (LoadStep.ok buf)).1.buffer = some buf) := by
  intro s step
  refine ⟨?_, ?_, ?_, ?_⟩
  · intro hfail
    cases step <;>
      simp_all [loadAudioFromFile, decodeAudioData, resetPlayback, stopCurrentSource]
  · intro hfail
    cases step <;>
      simp_all [generateSpeechFromText, decodeAudioData, resetPlayback, stopCurrentSource]
  · intro hfail
    cases step <;>
      simp_all [loadAudioFromVideo, decodeAudioData, resetPlayback, stopCurrentSource]
  · intro buf
    refine ⟨?_, ?_, ?_, ?_⟩ <;>
      simp [loadAudioFromFile, generateSpeechFromText, loadAudioFromVideo, decodeAudioData,
        resetPlayback, stopCurrentSource]

/-- Witness for C7: a decode failure on the running demo state (which holds
a previously decoded asset) leaves hasAudio false and the old asset in
place, for all three loaders, and a successful decode stores the new
asset. -/
theorem load_failure_atomicity_witness :
    ((loadAudioFromFile runningState LoadStep.decodeFail).1.hasAudio = false ∧
      (loadAudioFromFile runningState LoadStep.decodeFail).1.buffer = runningState.buffer) ∧
    ((generateSpeechFromText runningState true LoadStep.decodeFail).1.hasAudio = false ∧
      (generateSpeechFromText runningState true LoadStep.decodeFail).1.buffer =
        runningState.buffer) ∧
    ((loadAudioFromVideo runningState LoadStep.decodeFail).1.hasAudio = false ∧
      (loadAudioFromVideo runningState LoadStep.decodeFail).1.buffer = runningState.buffer) ∧
    (loadAudioFromFile runningState (LoadStep.ok oneSecBuf)).1.buffer = some oneSecBuf :=
  ⟨(load_failure_atomicity runningState LoadStep.decodeFail).1 rfl,
   (load_failure_atomicity runningState LoadStep.decodeFail).2.1 rfl,
   (load_failure_atomicity runningState LoadStep.decodeFail).2.2.1 rfl,
   ((load_failure_atomicity runningState LoadStep.decodeFail).2.2.2 oneSecBuf).1⟩

/-- Claim C10: updateVolume stores a clamped gain multiplier in [0, 1] and
writes it to the shared gain node; the analysis tap reads the source signal
upstream of the gain node, so its window (and hence the mean square feeding
the energy computation) is independent of the gain, while the sink signal is
the gain-scaled window; and two ticks that differ only in the stored volume
produce identical peak, energy, mouth and progress updates. -/
theorem volume_noninterference :
    ∀ (s : EngineState) (v1 v2 : ℚ) (src : List ℚ) (rms now : ℚ),
    (0 ≤ (updateVolume s v1).volume ∧ (updateVolume s v1).volume ≤ 1 ∧
      (updateVolume s v1).gainValue = (updateVolume s v1).volume) ∧
    (analyserSignal src = sourceSignal src ∧
      rmsSq (analyserSignal src) = rmsSq (sourceSignal src) ∧
      destinationSignal src (updateVolume s v1).gainValue =
        (analyserSignal src).map (fun x => x * clamp01 v1)) ∧
    ((tickAnimation (updateVolume s v1) rms now).peakEnergy =
      (tickAnimation (updateVolume s v2) rms now).peakEnergy ∧
     (tickAnimation (updateVolume s v1) rms now).energy =
      (tickAnimation (updateVolume s v2) rms now).energy ∧
     (tickAnimation (updateVolume s v1) rms now).mouthOpen =
      (tickAnimation (updateVolume s v2) rms now).mouthOpen ∧
     (tickAnimation (updateVolume s v1) rms now).playbackProgress =
      (tickAnimation (updateVolume s v2) rms now).playbackProgress) := by
  intro s v1 v2 src rms now
  refine ⟨⟨(clamp01_mem v1).1, (clamp01_mem v1).2, rfl⟩, ⟨rfl, rfl, rfl⟩, ?_⟩
  cases hb : s.buffer with
  | none => simp [tickAnimation, updateVolume, hb]
  | some buf => simp [tickAnimation, updateVolume, hb]

/-- Claim C6: once exportVideo passes its fail-fast precondition checks
(canvas ready and an asset loaded), the exporting flag is false after the
call settles, on the success path and on every failure path. -/
theorem export_clears_exporting_flag :
    ∀ (s : EngineState) (buf : AudioBuffer) (now now2 now3 : ℚ)
      (format : ExportFormat) (env : ExportEnv), s.buffer = some buf →
    (exportVideo s true now now2 now3 format env).1.isExporting = false := by
  intro s buf now now2 now3 format env hb
  simp [exportVideo, hb]

/-- Witness for C6: exporting the running demo state under a failing
transcode leaves the exporting flag false. -/
theorem export_clears_exporting_flag_witness :
    (exportVideo runningState true 1 2 3 ExportFormat.mp4 failTranscodeEnv).1.isExporting
      = false :=
  export_clears_exporting_flag runningState demoBuf 1 2 3 ExportFormat.mp4 failTranscodeEnv rfl

/-- Claim C1 (counterexample): exportVideo called on a running transport at
pre-call offset 1 with a failing MP4 transcode rejects, and afterwards the
transport is paused at offset 0 — neither the pre-call Running classification
nor the pre-call offset is restored on the failure path. -/
theorem export_restore_counterexample :
    runningState.isPlaying = true ∧
    getCurrentOffset runningState 1 = 1 ∧
    (exportVideo runningState true 1 2 3 ExportFormat.mp4 failTranscodeEnv).2 = false ∧
    (exportVideo runningState true 1 2 3 ExportFormat.mp4 failTranscodeEnv).1.isPlaying
      = false ∧
    (exportVideo runningState true 1 2 3 ExportFormat.mp4 failTranscodeEnv).1.pauseOffset
      = 0 := by
  refine ⟨rfl, ?_, ?_, ?_, ?_⟩ <;>
    norm_num [exportVideo, runningState, demoBuf, failTranscodeEnv, pause, schedulePlayback,
      sourceEnded, getCurrentOffset, stopCurrentSource]

set_option maxHeartbeats 1600000 in
/-- Claim C1 (amended): when exportVideo passes its preconditions, a
successful export restores the pre-recording Running/Paused classification
and the pre-recording offset to within 1/1000 s; a rejected export leaves
the transport paused — the running flag is not restored on any failure
path — and a rejection occurring after the forced playback (capture stream
and recording format both available, so the failure is a recorder or
transcode fault) leaves the stored offset at 0 rather than at the pre-call
offset. -/
theorem export_settle_transport :
    ∀ (s : EngineState) (buf : AudioBuffer) (now now2 now3 : ℚ)
      (format : ExportFormat) (env : ExportEnv),
    s.buffer = some buf → 0 ≤ buf.duration →
    ((exportVideo s true now now2 now3 format env).2 = true →
      (exportVideo s true now now2 now3 format env).1.isPlaying = s.isPlaying ∧
      |(exportVideo s true now now2 now3 format env).1.pauseOffset -
        getCurrentOffset s now| ≤ 1/1000) ∧
    ((exportVideo s true now now2 now3 format env).2 = false →
      (exportVideo s true now now2 now3 format env).1.isPlaying = false) ∧
    (env.audioStreamOk = true → env.formatSupported = true →
      (exportVideo s true now now2 now3 format env).2 = false →
      (exportVideo s true now now2 now3 format env).1.pauseOffset = 0) := by
  intro s buf now now2 now3 format env hb hd
  by_cases ha : env.audioStreamOk = false
  · refine ⟨?_, ?_, ?_⟩
    · intro htrue
      exfalso
      have hfalse : (exportVideo s true now now2 now3 format env).2 = false := by
        cases hp : s.isPlaying <;>
          simp [exportVideo, hb, ha, hp, pause, stopCurrentSource, schedulePlayback,
            sourceEnded, getCurrentOffset]
      rw [hfalse] at htrue
      exact absurd htrue (by simp)
    · intro _
      cases hp : s.isPlaying <;>
        simp [exportVideo, hb, ha, hp, pause, stopCurrentSource, schedulePlayback,
          sourceEnded, getCurrentOffset]
    · intro hstream _ _
      rw [hstream] at ha
      exact absurd ha (by simp)
  · by_cases hf : env.formatSupported = false
    · refine ⟨?_, ?_, ?_⟩
      · intro htrue
        exfalso
        have hfalse : (exportVideo s true now now2 now3 format env).2 = false := by
          cases hp : s.isPlaying <;>
            simp [exportVideo, hb, ha, hf, hp, pause, stopCurrentSource, schedulePlayback,
              sourceEnded, getCurrentOffset]
        rw [hfalse] at htrue
        exact absurd htrue (by simp)
      · intro _
        cases hp : s.isPlaying <;>
          simp [exportVideo, hb, ha, hf, hp, pause, stopCurrentSource, schedulePlayback,
            sourceEnded, getCurrentOffset]
      · intro _ hformat _
        rw [hformat] at hf
        exact absurd hf (by simp)
    · by_cases hr : env.recorderOk = false
      · refine ⟨?_, ?_, ?_⟩
        · intro htrue
          exfalso
          have hfalse : (exportVideo s true now now2 now3 format env).2 = false := by
            cases hp : s.isPlaying <;>
              simp [exportVideo, hb, ha, hf, hr, hp, pause, stopCurrentSource,
                schedulePlayback, sourceEnded, getCurrentOffset]
          rw [hfalse] at htrue
          exact absurd htrue (by simp)
        · intro _
          cases hp : s.isPlaying <;>
            simp [exportVideo, hb, ha, hf, hr, hp, pause, stopCurrentSource,
              schedulePlayback, sourceEnded, getCurrentOffset]
        · intro _ _ _
          cases hp : s.isPlaying <;>
            simp [exportVideo, hb, ha, hf, hr, hp, pause, stopCurrentSource,
              schedulePlayback, sourceEnded, getCurrentOffset]
      · by_cases ht : format = ExportFormat.mp4 ∧ env.transcodeOk = false
        · refine ⟨?_, ?_, ?_⟩
          · intro htrue
            exfalso
            have hfalse : (exportVideo s true now now2 now3 format env).2 = false := by
              cases hp : s.isPlaying <;>
                simp [exportVideo, hb, ha, hf, hr, ht, hp, pause, stopCurrentSource,
                  schedulePlayback, sourceEnded, getCurrentOffset]
            rw [hfalse] at htrue
            exact absurd htrue (by simp)
          · intro _
            cases hp : s.isPlaying <;>
              simp [exportVideo, hb, ha, hf, hr, ht, hp, pause, stopCurrentSource,
                schedulePlayback, sourceEnded, getCurrentOffset]
          · intro _ _ _
            cases hp : s.isPlaying <;>
              simp [exportVideo, hb, ha, hf, hr, ht, hp, pause, stopCurrentSource,
                schedulePlayback, sourceEnded, getCurrentOffset]
        · have htrue : (exportVideo s true now now2 now3 format env).2 = true := by
            cases hp : s.isPlaying <;>
              simp [exportVideo, hb, ha, hf, hr, ht, hp, pause, stopCurrentSource,
                schedulePlayback, sourceEnded, getCurrentOffset]
          refine ⟨?_, ?_, ?_⟩
          · intro _
            cases hp : s.isPlaying
            · constructor
              · simp [exportVideo, hb, ha, hf, hr, ht, hp, pause, stopCurrentSource,
                  schedulePlayback, sourceEnded, getCurrentOffset]
              · have hoffeq : (exportVideo s true now now2 now3 format env).1.pauseOffset =
                    getCurrentOffset s now := by
                  simp [exportVideo, hb, ha, hf, hr, ht, hp, pause, stopCurrentSource,
                    schedulePlayback, sourceEnded, getCurrentOffset]
                rw [hoffeq, sub_self, abs_zero]
                norm_num
            · constructor
              · simp [exportVideo, hb, ha, hf, hr, ht, hp, pause, stopCurrentSource,
                  schedulePlayback, sourceEnded, getCurrentOffset]
              · obtain ⟨ho0, hod⟩ := getCurrentOffset_playing_mem s buf now hb hp hd
                have hoffeq : (exportVideo s true now now2 now3 format env).1.pauseOffset =
                    min (max (getCurrentOffset s now) 0) (max (buf.duration - 1/1000) 0) := by
                  simp [exportVideo, hb, ha, hf, hr, ht, hp, pause, stopCurrentSource,
                    schedulePlayback, sourceEnded, getCurrentOffset]
                rw [hoffeq]
                exact clamped_offset_close (getCurrentOffset s now) buf.duration ho0 hod
          · intro hfalse
            exfalso
            rw [htrue] at hfalse
            exact absurd hfalse (by simp)
          · intro _ _ hfalse
            exfalso
            rw [htrue] at hfalse
            exact absurd hfalse (by simp)

/-- Witness for C1 (amended): a fully successful WebM export of the running
demo state restores the running flag and lands within 1/1000 of the pre-call
offset, and an MP4 export of the same state whose transcode step fails
rejects with the stored offset left at 0. -/
theorem export_settle_transport_witness :
    (((exportVideo runningState true 1 2 3 ExportFormat.webm allOkEnv).2 = true →
      (exportVideo runningState true 1 2 3 ExportFormat.webm allOkEnv).1.isPlaying =
        runningState.isPlaying ∧
      |(exportVideo runningState true 1 2 3 ExportFormat.webm allOkEnv).1.pauseOffset -
        getCurrentOffset runningState 1| ≤ 1/1000) ∧
    ((exportVideo runningState true 1 2 3 ExportFormat.webm allOkEnv).2 = false →
      (exportVideo runningState true 1 2 3 ExportFormat.webm allOkEnv).1.isPlaying =
        false) ∧
    (allOkEnv.audioStreamOk = true → allOkEnv.formatSupported = true →
      (exportVideo runningState true 1 2 3 ExportFormat.webm allOkEnv).2 = false →
      (exportVideo runningState true 1 2 3 ExportFormat.webm allOkEnv).1.pauseOffset
        = 0)) ∧
    (failTranscodeEnv.audioStreamOk = true → failTranscodeEnv.formatSupported = true →
      (exportVideo runningState true 1 2 3 ExportFormat.mp4 failTranscodeEnv).2 = false →
      (exportVideo runningState true 1 2 3 ExportFormat.mp4 failTranscodeEnv).1.pauseOffset
        = 0) :=
  ⟨export_settle_transport runningState demoBuf 1 2 3 ExportFormat.webm allOkEnv rfl
     (by norm_num [demoBuf]),
   (export_settle_transport runningState demoBuf 1 2 3 ExportFormat.mp4 failTranscodeEnv rfl
     (by norm_num [demoBuf])).2.2⟩

end AvatarEngine
